import Mathlib

/-!
Verification of the Charlie2 trial/block execution engine
(`charlie2/tools/testwidget.py`) and its trial-sequence generators
(`charlie2/tools/recipes.py`, `charlie2/tests/verbalworkingmemory.py`)
against the natural-language specification.

The engine is shallowly embedded: every method of `BaseTestWidget` that the
claims mention becomes a Lean function on an explicit engine state `Eng`.
Qt objects (clocks, timers, widgets) are modelled by state fields, and calls
into collaborators (persistence `data.save()`, the presentation hooks
`block()`/`trial()`, `switch_central_widget()`) are modelled by observable
event counters on the state, so that theorems can speak about how often each
collaborator was invoked.

The classes `SimpleProcedure` (from `charlie2/tools/procedure.py`) and
`TestData` (from `charlie2/tools/data.py`) are not part of the source tree;
they are modelled from the specification (sections 3, 4.1 and 6), as noted
in the doc comments of the corresponding definitions.
-/

namespace Charlie2

/-- Status of a trial record.  Modelled from the spec: "status (enum:
pending → in_progress → completed|skipped|aborted)". -/
inductive TStatus where
  | pending
  | in_progress
  | completed
  | skipped
  | aborted
deriving DecidableEq, Repr

/-- A trial record: the trial-spec fields the engine requires
(`block_number`, `block_type`, `practice`, `trial_number`), the
verbal-working-memory payload field `length`, and the outcome fields
(`correct`, `rt`, `time_elapsed`, `status`).  Modelled from the spec's
TrialSpec/TrialRecord descriptions (section 3). -/
structure TrialRec where
  block_number : Nat
  trial_number : Nat
  block_type : String
  practice : Bool
  length : Nat
  status : TStatus
  correct : Option Bool
  rt : Int
  time_elapsed : Int
deriving DecidableEq, Repr

/-- Modelled from the spec: `SimpleProcedure` (file `procedure.py` is not in
the source tree).  "Owns the full ordered list of TrialRecords, a cursor into
the list, and a set of flags: test_resumed, test_completed" (section 3). -/
structure Proc where
  records : List TrialRec
  cursor : Option Nat
  test_resumed : Bool
  test_completed : Bool
deriving DecidableEq, Repr

/-- Apply `f` to the record at index `i` (identity when out of range). -/
def updAt (recs : List TrialRec) (i : Nat) (f : TrialRec → TrialRec) :
    List TrialRec :=
  match recs.get? i with
  | none => recs
  | some r => recs.set i (f r)

/-- Index of the first pending record, if any. -/
def firstPending (recs : List TrialRec) : Option Nat :=
  recs.findIdx? (fun r => r.status == TStatus.pending)

/-- Modelled from the spec: constructing `SimpleProcedure(remaining_trials)`
builds the record list from the trial sequence with all records pending and
both flags false (sections 3 and 4.1). -/
def procInit (specs : List TrialRec) : Proc :=
  { records := specs.map (fun r => { r with status := TStatus.pending })
    cursor := none
    test_resumed := false
    test_completed := false }

/-- Modelled from the spec: `next()` "advances the cursor to the next pending
TrialRecord and returns it; fails with Exhausted when no trials remain"
(section 4.1); exhaustion is the normal completion signal, so it sets the
procedure's `test_completed` flag.  The returned `Option Nat` is the index of
the new current trial, `none` meaning `StopIteration`. -/
def procNext (p : Proc) : Proc × Option Nat :=
  match firstPending p.records with
  | none => ({ p with test_completed := true }, none)
  | some i =>
      ({ p with
          records := updAt p.records i (fun r => { r with status := TStatus.in_progress })
          cursor := some i }, some i)

/-- Modelled from the spec: `current_trial` is "the TrialRecord most recently
returned by next(), or none before the first call" (section 4.1). -/
def procCurrent (p : Proc) : Option TrialRec :=
  p.cursor.bind (fun i => p.records.get? i)

/-- Derived flag: a record is the first trial of its block iff it is at index
0 or the previous record belongs to a different block ("computed from
position in the Trial Sequence, not stored", section 3). -/
def firstInBlock (recs : List TrialRec) (i : Nat) : Bool :=
  match i, recs.get? i with
  | _, none => false
  | 0, some _ => true
  | Nat.succ j, some r =>
      match recs.get? j with
      | none => true
      | some prev => prev.block_number != r.block_number

/-- The `first_trial_in_block` of the procedure's current trial (false when there
is no current trial). -/
def currentFtib (p : Proc) : Bool :=
  match p.cursor with
  | none => false
  | some i => firstInBlock p.records i

/-- Modelled from the spec: `skip_block()` "marks every pending TrialRecord
in the same block as the current one as skipped, with rt=0" (section 4.1). -/
def procSkipBlock (p : Proc) : Proc :=
  match procCurrent p with
  | none => p
  | some cur =>
      { p with
          records := p.records.map (fun r =>
            if r.status == TStatus.pending && r.block_number == cur.block_number then
              { r with status := TStatus.skipped, rt := 0 }
            else r) }

/-- Modelled from the spec: `skip_current_trial()` "marks only the current
TrialRecord as skipped" (section 4.1). -/
def procSkipCurrentTrial (p : Proc) : Proc :=
  match p.cursor with
  | none => p
  | some i =>
      { p with records := updAt p.records i (fun r => { r with status := TStatus.skipped }) }

/-- Modelled from the spec: `abort()` "marks all remaining pending
TrialRecords as aborted" (section 4.1). -/
def procAbort (p : Proc) : Proc :=
  { p with
      records := p.records.map (fun r =>
        if r.status == TStatus.pending then { r with status := TStatus.aborted } else r) }

/-- Modelled from the spec: `completed_trials` is the "read-only ordered view
of all TrialRecords with status in {completed, skipped}" (section 4.1). -/
def completedTrials (p : Proc) : List TrialRec :=
  p.records.filter (fun r => r.status == TStatus.completed || r.status == TStatus.skipped)

/-- Engine state: one field per `BaseTestWidget` instance attribute that the
verified methods use, plus observable event counters for the calls the engine
makes into its collaborators (persistence saves, summaries, aborts,
presentation renders, countdowns, `switch_central_widget`, procedure
creations, `skip_block` invocations).  `data_test_resumed` and
`data_test_completed` are the `TestData` flags (`data.py` is not in the
source tree; modelled from the spec, sections 3 and 6: set at construction,
true on resume / on loading an already-completed session). -/
structure Eng where
  specs : List TrialRec
  proc : Option Proc
  data_test_resumed : Bool
  data_test_completed : Bool
  save_after_each_trial : Bool
  block_silent : Bool
  skip_countdown : Bool
  block_max_time : Option Nat
  trial_max_time : Option Nat
  trial_on : Bool
  mouse_on : Bool
  block_timer_on : Bool
  trial_timer_on : Bool
  saves : Nat
  summaries : Nat
  aborts : Nat
  block_renders : Nat
  trial_renders : Nat
  countdowns : Nat
  switches : Nat
  proc_creations : Nat
  skip_block_calls : Nat
deriving DecidableEq, Repr

/-- Python truthiness of an optional numeric configuration value
(`None` and `0` are falsy). -/
def truthy (o : Option Nat) : Bool :=
  match o with
  | none => false
  | some n => n != 0

/-- The `_stop_block_timeout`: stops the block timer if active (no-op otherwise). -/
def stopBlockTimeout (e : Eng) : Eng :=
  { e with block_timer_on := false }

/-- The `_stop_trial_timeout`: stops the trial timer if active (no-op otherwise). -/
def stopTrialTimeout (e : Eng) : Eng :=
  { e with trial_timer_on := false }

/-- The `_start_block_timeout`: (re)connects and starts the block timer. -/
def startBlockTimeout (e : Eng) : Eng :=
  { e with block_timer_on := true }

/-- The `_start_trial_timeout`: (re)connects and starts the trial timer. -/
def startTrialTimeout (e : Eng) : Eng :=
  { e with trial_timer_on := true }

/-- The `trial_on` property setter: on `False` stops the trial timer, on
`True` starts it when `trial_max_time` is truthy, then stores the value. -/
def setTrialOn (e : Eng) (v : Bool) : Eng :=
  let e :=
    if v = false then stopTrialTimeout e
    else if truthy e.trial_max_time then startTrialTimeout e
    else e
  { e with trial_on := v }

/-- The `mouse_on` property setter (cursor shape is presentation-only). -/
def setMouseOn (e : Eng) (v : Bool) : Eng :=
  { e with mouse_on := v }

/-- The `safe_close`: stop both timers; abort the procedure if it is not
completed, otherwise compute and attach the summary; save the data; hand
control back via `switch_central_widget`.  A summary computation is recorded
by the `summaries` counter, a save by `saves`, the hand-back by `switches`. -/
def safe_close (e : Eng) : Eng :=
  let e := stopBlockTimeout e
  let e := stopTrialTimeout e
  let e :=
    match e.proc with
    | none => e
    | some p =>
        if p.test_completed = false then
          { e with proc := some (procAbort p), aborts := e.aborts + 1 }
        else
          { e with summaries := e.summaries + 1 }
  let e := { e with saves := e.saves + 1 }
  { e with switches := e.switches + 1 }

/-- The `_trial`: stop the trial timer, restart the trial clock, run the
countdown when this is the first trial of a block and `skip_countdown` is
not set, start the block timer on a first-in-block trial when
`block_max_time` is truthy, set `trial_on` (starting the trial timer when
configured), and invoke the test-specific `trial()` hook (the
`trial_renders` counter). -/
def _trial (e : Eng) : Eng :=
  let e := stopTrialTimeout e
  let ftib := match e.proc with
    | none => false
    | some p => currentFtib p
  let e := if ftib && !e.skip_countdown then { e with countdowns := e.countdowns + 1 } else e
  let e := if ftib && truthy e.block_max_time then startBlockTimeout e else e
  let e := setTrialOn e true
  { e with trial_renders := e.trial_renders + 1 }

/-- The `_block`: set `trial_on` to false (stopping the trial timer), stop the
block timer, restart the block clock; in a silent block set `skip_countdown`
and go straight to `_trial`; otherwise turn the mouse on and invoke the
test-specific `block()` hook (the `block_renders` counter). -/
def _block (e : Eng) : Eng :=
  let e := setTrialOn e false
  let e := stopBlockTimeout e
  if e.block_silent then
    _trial { e with skip_countdown := true }
  else
    let e := setMouseOn e true
    { e with block_renders := e.block_renders + 1 }

/-- The procedure-creation guard at the top of `_step`: when
`data.test_resumed` and `data.test_completed` are both false, replace the
procedure with a fresh one from `get_procedure()` (which builds a new
`SimpleProcedure` from `make_trials()`; counted by `proc_creations`). -/
def stepGuard (e : Eng) : Eng :=
  if e.data_test_resumed = false ∧ e.data_test_completed = false then
    { e with proc := some (procInit e.specs), proc_creations := e.proc_creations + 1 }
  else e

/-- The `_step`: when `data.test_resumed` and `data.test_completed` are both
false, (re)create the procedure (`stepGuard`); then request the next trial.
On `StopIteration` run `safe_close`; otherwise run `_block` when the current
trial is the first of its block, else `_trial`. -/
def _step (e : Eng) : Eng :=
  let e := stepGuard e
  match e.proc with
  | none => e
  | some p =>
      match procNext p with
      | (p', none) => safe_close { e with proc := some p' }
      | (p', some _) =>
          let e := { e with proc := some p' }
          if currentFtib p' then _block e else _trial e

/-- The `_next_trial`: save when configured to save after each trial, consult
the stopping rule (a function of the procedure's completed trials; the
widget method `stopping_rule` reads `self`), calling `skip_block` when it
returns true, then `_step`. -/
def _next_trial (rule : List TrialRec → Bool) (e : Eng) : Eng :=
  let e := if e.save_after_each_trial then { e with saves := e.saves + 1 } else e
  let e :=
    match e.proc with
    | none => e
    | some p =>
        if rule (completedTrials p) then
          { e with proc := some (procSkipBlock p), skip_block_calls := e.skip_block_calls + 1 }
        else e
  _step e

/-- The default `BaseTestWidget.stopping_rule`: always returns `False`. -/
def default_stopping_rule (ct : List TrialRec) : Bool :=
  let _ := ct
  false

/-- The `_end_block_early`: the block-timer expiry callback.  Unconditionally
calls `proc.skip_block()` and then `_next_trial`. -/
def _end_block_early (rule : List TrialRec → Bool) (e : Eng) : Eng :=
  let e :=
    match e.proc with
    | none => e
    | some p =>
        { e with proc := some (procSkipBlock p), skip_block_calls := e.skip_block_calls + 1 }
  _next_trial rule e

/-- The `_end_trial_early`: the trial-timer expiry callback.  Unconditionally
calls `proc.skip_current_trial()` and then `_next_trial`. -/
def _end_trial_early (rule : List TrialRec → Bool) (e : Eng) : Eng :=
  let e :=
    match e.proc with
    | none => e
    | some p => { e with proc := some (procSkipCurrentTrial p) }
  _next_trial rule e

/-- Apply `f` to the procedure's current trial record in place. -/
def updCurrent (e : Eng) (f : TrialRec → TrialRec) : Eng :=
  match e.proc with
  | none => e
  | some p =>
      match p.cursor with
      | none => e
      | some i => { e with proc := some { p with records := updAt p.records i f } }

/-- The engine's current trial, if any. -/
def engCurrent (e : Eng) : Option TrialRec :=
  e.proc.bind procCurrent

/-- The `mousePressEvent` (and, identically, `keyReleaseEvent`): when a current
trial exists and `trial_on` holds, run the test-specific handler (`hook`,
which may record a response on the current trial record), then assign
`rt := trial clock elapsed` and `time_elapsed := block clock elapsed` on the
current trial, and when its status is now completed, run `_next_trial`.
The two clock readings are passed in as `trialElapsed` and `blockElapsed`. -/
def mousePressEvent (hook : TrialRec → TrialRec) (rule : List TrialRec → Bool)
    (e : Eng) (trialElapsed blockElapsed : Int) : Eng :=
  match engCurrent e with
  | none => e
  | some _ =>
      if e.trial_on then
        let e := updCurrent e hook
        let e := updCurrent e (fun r => { r with rt := trialElapsed, time_elapsed := blockElapsed })
        if (engCurrent e).map (fun r => r.status) = some TStatus.completed then
          _next_trial rule e
        else e
      else e

/-- The `keyReleaseEvent` has exactly the body of `mousePressEvent`. -/
def keyReleaseEvent (hook : TrialRec → TrialRec) (rule : List TrialRec → Bool)
    (e : Eng) (trialElapsed blockElapsed : Int) : Eng :=
  mousePressEvent hook rule e trialElapsed blockElapsed

/-! ### Trial-sequence generators (`charlie2/tools/recipes.py`) -/

/-- Values stored in a Python trial dictionary: ints, strings, coordinate
pairs, and booleans. -/
inductive PyVal where
  | n (v : Nat)
  | s (v : String)
  | pos (x y : Int)
  | b (v : Bool)
deriving DecidableEq, Repr

/-- A Python dict with string keys, as an association list. -/
abbrev TrialDict := List (String × PyVal)

/-- The `blocks` list of `charlie1_trials`. -/
def charlie1_blocks : List Nat :=
  List.replicate 8 0 ++ List.replicate 25 1 ++ List.replicate 8 2 ++
    List.replicate 25 3 ++ List.replicate 8 4 ++ List.replicate 25 5

/-- The `block_types` list of `charlie1_trials`. -/
def charlie1_block_types : List String :=
  List.replicate 8 ("practice") ++ List.replicate 25 ("test") ++
    List.replicate 8 ("practice") ++ List.replicate 25 ("test") ++
    List.replicate 8 ("practice") ++ List.replicate 25 ("test")

/-- The `trials` list of `charlie1_trials`: `(range(8) + range(25)) * 3`. -/
def charlie1_trial_numbers : List Nat :=
  (List.range 8 ++ List.range 25) ++ (List.range 8 ++ List.range 25) ++
    (List.range 8 ++ List.range 25)

/-- The `blaze_positions` list of `charlie1_trials`. -/
def charlie1_blaze_positions : List (Int × Int) := [
  (-238, -111), (387, 60), (347, -269), (135, -157), (34, -360), (-227, 17),
  (130, 122), (400, 320), (-264, -59), (257, 205), (-156, 238), (90, -144),
  (370, -146), (205, -348), (-209, -253), (-358, -211), (-43, -37), (122, -264),
  (-176, -359), (-139, -185), (170, 12), (400, 0), (396, 88), (347, 316),
  (-5, 172), (138, -67), (-11, -165), (211, -216), (400, -300), (250, -46),
  (-200, 101), (237, 103), (35, 329), (-285, -22), (-44, 131), (-291, 138),
  (26, -219), (261, 41), (-324, -200), (258, -342), (191, 353), (344, 272),
  (-58, 254), (-353, -329), (243, -172), (150, -400), (300, -309), (380, -18),
  (-387, -47), (-186, -385), (-189, -153), (361, 125), (-311, 104), (-231, 247),
  (-71, -192), (92, -310), (298, -88), (-77, 36), (98, 73), (244, 187),
  (33, 169), (146, 341), (-136, 336), (-147, 201), (-294, -102), (-33, -313),
  (337, 13), (-345, -3), (396, 280), (-365, 118), (86, -231), (-306, -275),
  (366, -125), (-165, -131), (-316, -140), (-385, 6), (-387, -346), (296, -328),
  (303, -57), (308, 252), (361, 23), (127, 30), (-266, -64), (-166, -64),
  (193, -217), (-88, 123), (178, 213), (353, -240), (-27, -399), (-65, -228),
  (-248, 58), (-33, 270), (-371, 180), (-205, -274), (60, -276), (-132, 28),
  (76, 101), (91, 346), (-126, 345)
  ]

/-- The `glyphs` list of `charlie1_trials` (every glyph passed through `str`). -/
def charlie1_glyphs : List String :=
  ((List.range' 1 8).map (fun n => toString n)) ++
    ((List.range' 1 25).map (fun n => toString n)) ++
    (("abcdefgh").data.map (fun c => toString c)) ++
    (("abcdefghijklmnopqrstuvwxy").data.map (fun c => toString c)) ++
    (("1a2b3c4d").data.map (fun c => toString c)) ++
    ["1", "a", "2", "b", "3", "c", "4", "d", "5", "e", "6", "f", "7", "g",
      "8", "h", "9", "i", "10", "j", "11", "k", "12", "l", "13"]

/-- Truncating 5-way zip, as Python `zip`. -/
def zip5 : List Nat → List String → List Nat → List (Int × Int) → List String →
    List (Nat × String × Nat × (Int × Int) × String)
  | a :: as, b :: bs, c :: cs, d :: ds, e :: es =>
      (a, b, c, d, e) :: zip5 as bs cs ds es
  | _, _, _, _, _ => []

/-- The `charlie1_trials`: zips the five per-field lists and builds one dict per
trial with keys `block`, `block_type`, `trial`, `blaze_position`, `glyph`. -/
def charlie1_trials : List TrialDict :=
  (zip5 charlie1_blocks charlie1_block_types charlie1_trial_numbers
      charlie1_blaze_positions charlie1_glyphs).map
    (fun x => [("block", PyVal.n x.1), ("block_type", PyVal.s x.2.1),
      ("trial", PyVal.n x.2.2.1), ("blaze_position", PyVal.pos x.2.2.2.1.1 x.2.2.2.1.2),
      ("glyph", PyVal.s x.2.2.2.2)])

/-- The `blocks` list of `charlie2_trials`. -/
def charlie2_blocks : List Nat :=
  List.replicate 5 0 ++ List.replicate 20 1 ++ List.replicate 5 2 ++
    List.replicate 20 3 ++ List.replicate 5 4 ++ List.replicate 20 5

/-- The `block_types` list of `charlie2_trials`. -/
def charlie2_block_types : List String :=
  List.replicate 5 ("practice") ++ List.replicate 20 ("test") ++
    List.replicate 5 ("practice") ++ List.replicate 20 ("test") ++
    List.replicate 5 ("practice") ++ List.replicate 20 ("test")

/-- The `trials` list of `charlie2_trials`: `(range(5) + range(20)) * 3`. -/
def charlie2_trial_numbers : List Nat :=
  (List.range 5 ++ List.range 20) ++ (List.range 5 ++ List.range 20) ++
    (List.range 5 ++ List.range 20)

/-- The `blaze_positions` list of `charlie2_trials`. -/
def charlie2_blaze_positions : List (Int × Int) := [
  (-183, -85), (298, 276), (267, -207), (104, -121), (26, -267), (-203, -45),
  (198, 158), (-120, 183), (69, -111), (285, -112), (158, -268), (-161, -195),
  (-275, -162), (-33, -28), (94, -203), (-135, -276), (-107, -142), (131, 9),
  (308, 0), (305, 68), (267, 243), (-4, 132), (106, -52), (-8, -127),
  (162, -166), (-219, -17), (-34, 101), (-224, 106), (20, -168), (201, 32),
  (265, 209), (-45, 195), (-272, -253), (187, -132), (115, -308), (231, -238),
  (292, -14), (-298, -36), (-143, -296), (-145, -118), (278, 96), (-239, 80),
  (-178, 190), (-55, -148), (71, -238), (229, -68), (-59, 28), (75, 56),
  (188, 144), (25, 130), (259, 10), (-265, -2), (305, 215), (-281, 91),
  (66, -178), (-243, -108), (-296, 5), (-298, -266), (228, -252), (233, -44),
  (237, 194), (278, 18), (98, 23), (-205, -49), (-128, -49), (148, -167),
  (-68, 95), (137, 164), (272, -185), (-21, -307), (-50, -175), (-191, 45),
  (-25, 208), (-285, 138), (-158, -211)
  ]

/-- The `glyphs` list of `charlie2_trials` (every glyph passed through `str`). -/
def charlie2_glyphs : List String :=
  ((List.range' 1 5).map (fun n => toString n)) ++
    ((List.range' 1 20).map (fun n => toString n)) ++
    (("abcde").data.map (fun c => toString c)) ++
    (("abcdefghijklmnopqrst").data.map (fun c => toString c)) ++
    (("1a2b3").data.map (fun c => toString c)) ++
    ["1", "a", "2", "b", "3", "c", "4", "d", "5", "e", "6", "f", "7", "g",
      "8", "h", "9", "i", "10", "j"]

/-- The `charlie2_trials`: zips the five per-field lists and builds one dict per
trial with keys `block_number`, `block_type`, `trial_number`,
`blaze_position`, `glyph`. -/
def charlie2_trials : List TrialDict :=
  (zip5 charlie2_blocks charlie2_block_types charlie2_trial_numbers
      charlie2_blaze_positions charlie2_glyphs).map
    (fun x => [("block_number", PyVal.n x.1), ("block_type", PyVal.s x.2.1),
      ("trial_number", PyVal.n x.2.2.1), ("blaze_position", PyVal.pos x.2.2.2.1.1 x.2.2.2.1.2),
      ("glyph", PyVal.s x.2.2.2.2)])


/-! ### Verbal working memory test (`charlie2/tests/verbalworkingmemory.py`) -/

/-- The `trial_types` inside `TestWidget.make_trials`. -/
def vwm_trial_types : List String := ["forward", "backward", "lns_prac", "lns"]

/-- The `practices` dict inside `make_trials` (`none` models a KeyError on a
block type outside the dict; all four block types are covered). -/
def vwm_practices (bt : String) : Option Bool :=
  if bt = "forward" then some false
  else if bt = "backward" then some false
  else if bt = "lns_prac" then some true
  else if bt = "lns" then some false
  else none

/-- One dict appended to `details` by `make_trials`. -/
def vwm_mkdict (block trial : Nat) (bt : String) (pr : Bool) (sq : String) :
    TrialDict :=
  [("block_number", PyVal.n block), ("trial_number", PyVal.n trial),
    ("block_type", PyVal.s bt), ("practice", PyVal.b pr),
    ("sequence", PyVal.s sq), ("length", PyVal.n sq.length)]

/-- The nested loops of `make_trials` over `enumerate(sequences)`; `none`
models the IndexError of `trial_types[block]` when `block >= 4`. -/
def vwm_build : List (Nat × List String) → Option (List TrialDict)
  | [] => some []
  | (block, seqs) :: rest =>
      (vwm_trial_types.get? block).bind (fun bt =>
        (vwm_practices bt).bind (fun pr =>
          (vwm_build rest).map (fun ds =>
            (seqs.enum.map (fun x => vwm_mkdict block x.1 bt pr x.2)) ++ ds)))

/-- The `TestWidget.make_trials`, parametric in the output of `get_vwm_stimuli`
(a per-language stimuli table, data rather than code; each sequence is used
only through `str(sequence)`, so it is taken here as a string). -/
def vwm_make_trials (sequences : List (List String)) : Option (List TrialDict) :=
  vwm_build sequences.enum

/-- Python substring test `needle in hay`. -/
def strContains (hay needle : String) : Bool :=
  (hay.splitOn needle).length > 1

/-- The `TestWidget.block_stopping_rule`, as a function of
`self.procedure.completed_trials`; `none` models the IndexError of
`completed_trials[-1]` on an empty history.  `t["correct"] is False` is the
tri-state test `correct = some false`. -/
def block_stopping_rule (ct : List TrialRec) : Option Bool :=
  match ct.getLast? with
  | none => none
  | some last =>
      if last.practice then some false
      else
        let n : Nat := if strContains last.block_type ("lns") then 3 else 2
        let trials := ct.filter (fun t => t.block_number == last.block_number)
        let trials := trials.filter (fun t => t.length == last.length)
        if trials.length < n then some false
        else
          let errs := trials.filter (fun t => t.correct == some false)
          some (decide (errs.length = n))

/-- The `block_stopping_rule` as wired into the engine's advance step: on the
histories at which the engine consults it (right after a completed trial,
hence nonempty) the Option is always `some`. -/
def vwm_rule (ct : List TrialRec) : Bool :=
  (block_stopping_rule ct).getD false

/-! ### `BaseTestWidget.basic_summary` -/

/-- Trial view used by `basic_summary`: exactly the fields it reads, with
`Option` for the keys whose presence it tests (`'block_type' in trial`,
`'correct' in trials[0]`, `'resumed_from_here' in t`).  A `correct` key
present with value `None` is identified with an absent key (the claims do
not distinguish them). -/
structure STrial where
  skipped : Bool
  block_type : Option String
  correct : Option Bool
  rt : Int
  time_elapsed : Int
  resumed_from_here : Bool
deriving DecidableEq, Repr

/-- Summary values: booleans, ints, and rationals (Python float arithmetic
modelled exactly over the rationals). -/
inductive SumVal where
  | b (v : Bool)
  | i (v : Int)
  | q (v : Rat)
deriving DecidableEq, Repr

/-- Python `int()` truncation toward zero on a rational. -/
def pyInt (x : Rat) : Int := if 0 <= x then Rat.floor x else Rat.ceil x

/-- The practice filter `basic_summary` applies to its trial list: when every
trial has a `block_type` key, drop the practice-block trials. -/
def analysedTrials (trials : List STrial) : List STrial :=
  if trials.all (fun t => t.block_type.isSome) then
    trials.filter (fun t => t.block_type != some ("practice"))
  else trials

/-- Python list indexing with negative-index support; `none` = IndexError. -/
def pyIndex (l : List STrial) (i : Int) : Option STrial :=
  if 0 <= i then l.get? i.toNat
  else if (-i).toNat <= l.length then l.get? (l.length - (-i).toNat)
  else none

/-- The `sum([trials[i].time_elapsed for i in idx])`; `none` = IndexError. -/
def sumElapsedAt (l : List STrial) : List Int → Option Int
  | [] => some 0
  | i :: rest =>
      match pyIndex l i, sumElapsedAt l rest with
      | some t, some s => some (t.time_elapsed + s)
      | _, _ => none

/-- The `time_taken` section of `basic_summary`: the four-way branch on
`any_skipped`/`test_resumed`/`adjust_time_taken`, returning the
`time_taken` entry to add to the result dict (empty in the
skips-without-adjustment branch), or the uncaught exception
(IndexError of `trials[-1]`/`trials[i]`, ZeroDivisionError of
`sum(rt)/len(not_skipped)`, TypeError of `None * 1000`). -/
def bsTimeTaken (skipped trials not_skipped : List STrial)
    (any_skipped test_resumed : Bool) (block_max_time : Option Nat)
    (adjust_time_taken : Bool) : Except String (List (String × SumVal)) :=
  if !any_skipped && !test_resumed then
    match trials.getLast? with
    | none => Except.error "IndexError"
    | some last => Except.ok [("time_taken", SumVal.i last.time_elapsed)]
  else if !any_skipped && test_resumed then
    let idx := (trials.filter (fun t => t.resumed_from_here)).map
      (fun t => ((trials.indexOf t : Nat) : Int) - 1)
    match sumElapsedAt trials idx, pyIndex trials (-1) with
    | some res, some last =>
        Except.ok [("time_taken", SumVal.i (last.time_elapsed + res))]
    | _, _ => Except.error "IndexError"
  else if any_skipped && !adjust_time_taken then Except.ok []
  else
    if not_skipped.length = 0 then Except.error "ZeroDivisionError"
    else
      let meanrt : Rat :=
        (((not_skipped.map (fun t => t.rt)).sum : Int) : Rat) /
          ((not_skipped.length : Nat) : Rat)
      match block_max_time with
      | none => Except.error "TypeError"
      | some bmt =>
          Except.ok [("time_taken",
            SumVal.i (pyInt ((bmt : Rat) * 1000 + meanrt * ((skipped.length : Nat) : Rat))))]

/-- The accuracy section of `basic_summary`: when the first analysed trial
carries a `correct` key, append the response count and the accuracy ratio
(ZeroDivisionError when there are no responses); IndexError on an empty
analysed list. -/
def bsAccuracy (trials not_skipped : List STrial)
    (dic : List (String × SumVal)) : Except String (List (String × SumVal)) :=
  match trials.head? with
  | none => Except.error "IndexError"
  | some t0 =>
      if t0.correct.isSome then
        let ncorrect := (not_skipped.filter (fun t => t.correct == some true)).length
        if not_skipped.length = 0 then Except.error "ZeroDivisionError"
        else
          Except.ok (dic ++ [("correct", SumVal.i ncorrect),
            ("accuracy", SumVal.q (((ncorrect : Nat) : Rat) / ((not_skipped.length : Nat) : Rat)))])
      else Except.ok dic

/-- The `BaseTestWidget.basic_summary`.  The parameters are the `self`
attributes it reads (`proc.all_skipped`, `proc.completed_trials`,
`data.test_resumed`, `block_max_time`) together with its two real arguments;
the result is the returned dict as an association list, and `.error` marks
the uncaught Python exceptions at the points where the source raises them. -/
def basic_summary (all_skipped : Bool) (completed : List STrial)
    (test_resumed : Bool) (block_max_time : Option Nat)
    (trialsArg : Option (List STrial)) (adjust_time_taken : Bool) :
    Except String (List (String × SumVal)) :=
  if all_skipped then Except.ok [("completed", SumVal.b false)]
  else
    let trials := trialsArg.getD completed
    let skipped := trials.filter (fun t => t.skipped)
    let any_skipped := decide (skipped.length > 0)
    let trials := analysedTrials trials
    let not_skipped := trials.filter (fun t => !t.skipped)
    let dic : List (String × SumVal) :=
      [("completed", SumVal.b true), ("responses", SumVal.i not_skipped.length),
        ("any_skipped", SumVal.b any_skipped)]
    match bsTimeTaken skipped trials not_skipped any_skipped test_resumed
        block_max_time adjust_time_taken with
    | Except.error s => Except.error s
    | Except.ok add => bsAccuracy trials not_skipped (dic ++ add)

/-! ### Concrete fixtures used in scenario theorems -/

/-- A minimal non-practice test-block trial record. -/
def sampleTrial : TrialRec :=
  { block_number := 0, trial_number := 0, block_type := "test",
    practice := false, length := 0, status := TStatus.pending, correct := none,
    rt := 0, time_elapsed := 0 }

/-- A freshly constructed widget running the given trial sequence: the
attribute values `__init__` assigns (`block_silent = False`,
`skip_countdown = False`, every max-time `None`, `trial_on = False`,
`mouse_on = True`), no procedure yet, a fresh `TestData` (neither resumed
nor completed), and zeroed event counters. -/
def freshEng (specs : List TrialRec) : Eng :=
  { specs := specs, proc := none, data_test_resumed := false,
    data_test_completed := false, save_after_each_trial := false,
    block_silent := false, skip_countdown := false, block_max_time := none,
    trial_max_time := none, trial_on := false, mouse_on := true,
    block_timer_on := false, trial_timer_on := false, saves := 0,
    summaries := 0, aborts := 0, block_renders := 0, trial_renders := 0,
    countdowns := 0, switches := 0, proc_creations := 0, skip_block_calls := 0 }

/-- A resumed two-trial session whose procedure is exhausted and completed. -/
def endedProc : Proc :=
  { records := [{ sampleTrial with status := TStatus.completed },
      { sampleTrial with trial_number := 1, status := TStatus.completed }],
    cursor := some 1, test_resumed := true, test_completed := true }

/-- The engine after that session has ended: `safe_close` has run once (one
summary, one save, one hand-back), both timers are stopped. -/
def endedEng : Eng :=
  { (freshEng []) with
      proc := some endedProc
      data_test_resumed := true
      saves := 1
      summaries := 1
      switches := 1 }

/-- C2 (code evaluated at the failing input): calling `_step` again on the
ended session re-runs `safe_close` — a second summary, a second
`data.save()` and a second hand-back occur, so the call is not a no-op. -/
theorem step_after_exhausted_not_noop :
    (_step endedEng).saves = 2 ∧ (_step endedEng).summaries = 2 ∧
      (_step endedEng).switches = 2 ∧ _step endedEng ≠ endedEng := by
  decide

/-- C3 (code evaluated at the failing input): the timer-expiry callbacks run
unguarded on the ended session — `_end_block_early` invokes
`proc.skip_block()` and both callbacks re-enter `_next_trial`/`_step`,
re-running `safe_close` (a second save and hand-back), instead of being
state-checked no-ops. -/
theorem timer_callback_after_end_not_noop :
    (_end_block_early default_stopping_rule endedEng).skip_block_calls = 1 ∧
      (_end_block_early default_stopping_rule endedEng).saves = 2 ∧
      (_end_block_early default_stopping_rule endedEng).switches = 2 ∧
      (_end_trial_early default_stopping_rule endedEng).saves = 2 ∧
      (_end_trial_early default_stopping_rule endedEng).switches = 2 := by
  decide

/-- The engine after the first `_step` of a fresh two-trial session. -/
def freshStep1 : Eng :=
  _step (freshEng [sampleTrial, { sampleTrial with trial_number := 1 }])

/-- The same engine after the first trial was completed and the engine
advanced once via `_next_trial`. -/
def freshStep2 : Eng :=
  _next_trial default_stopping_rule
    (updCurrent freshStep1
      (fun r => { r with status := TStatus.completed, correct := some true }))

/-- C4 (code evaluated at the failing input): on a fresh session the guard
`data.test_resumed is False and data.test_completed is False` holds at every
`_step`, so the second advance re-creates the procedure: two creations, the
completed first trial is forgotten, and the cursor is back on trial 0 —
the cursor does not advance monotonically. -/
theorem procedure_recreated_every_step :
    freshStep1.proc_creations = 1 ∧ freshStep2.proc_creations = 2 ∧
      (freshStep1.proc.bind procCurrent).map (fun r => r.trial_number) = some 0 ∧
      (freshStep2.proc.bind procCurrent).map (fun r => r.trial_number) = some 0 ∧
      (freshStep2.proc.map (fun p => completedTrials p)) = some [] := by
  decide

/-! ### C9: attribute names assigned by `__init__` versus names read by the
timing operations.  This layer models Python attribute resolution literally:
an operation whose read sequence contains a name `__init__` never assigned
(and that no other method assigned before it can run) raises AttributeError
at that read.  Class-level methods and Qt base-class members resolve on the
class and are omitted. -/

/-- Every `self.<name> = ...` assignment in `BaseTestWidget.__init__`, in
source order. -/
def initAttrs : List String :=
  ["vis_stim_paths", "aud_stim_paths", "instructions_font", "_trial_on",
    "_mouse_on", "test_time", "block_time", "trial_time", "args",
    "block_silent", "skip_countdown", "test_max_time", "block_max_time",
    "trial_max_time", "data", "zones", "instructions"]

/-- Instance attributes read by `_start_block_timeout`, in source order. -/
def startBlockTimeoutReads : List String :=
  ["_block_timeout_timer", "block_max_time"]

/-- Instance attributes read by `_start_trial_timeout`, in source order. -/
def startTrialTimeoutReads : List String :=
  ["_trial_timeout_timer", "trial_max_time"]

/-- Instance attributes read by `_stop_block_timeout`. -/
def stopBlockTimeoutReads : List String := ["_block_timeout_timer"]

/-- Instance attributes read by `_stop_trial_timeout`. -/
def stopTrialTimeoutReads : List String := ["_trial_timeout_timer"]

/-- Instance attributes read by `_block`, in source order: the `trial_on`
property setter calls `_stop_trial_timeout` (reading
`_trial_timeout_timer`), then `_stop_block_timeout` reads
`_block_timeout_timer`, then `_block_time` is restarted and `block_silent`
consulted. -/
def blockReads : List String :=
  ["_trial_timeout_timer", "_block_timeout_timer", "_block_time",
    "block_silent"]

/-- Instance attributes read by `_trial`, in source order:
`_stop_trial_timeout` reads `_trial_timeout_timer`, then `_trial_time` is
restarted, then `proc` and `skip_countdown` are consulted. -/
def trialReads : List String :=
  ["_trial_timeout_timer", "_trial_time", "proc", "skip_countdown"]

/-- Instance attributes read by `display_instructions` (after
`clear_screen`, which only touches class-level and Qt members):
`_instructions_font`. -/
def displayInstructionsReads : List String := ["_instructions_font"]

/-- The first attribute in a read sequence that `__init__` did not assign:
the read at which a freshly constructed widget raises AttributeError. -/
def firstMissing (reads : List String) : Option String :=
  reads.find? (fun a => !(initAttrs.contains a))

/-- C9: each timing/presentation operation reads, as its first
`__init__`-uninitialised attribute, one of the underscore-prefixed names the
claim lists, so on a fresh widget each hits the attribute-error branch; and
`__init__` assigns only the un-prefixed counterparts and no timer objects. -/
theorem timing_ops_hit_attribute_error :
    firstMissing startBlockTimeoutReads = some "_block_timeout_timer" ∧
      firstMissing startTrialTimeoutReads = some "_trial_timeout_timer" ∧
      firstMissing stopBlockTimeoutReads = some "_block_timeout_timer" ∧
      firstMissing stopTrialTimeoutReads = some "_trial_timeout_timer" ∧
      firstMissing blockReads = some "_trial_timeout_timer" ∧
      firstMissing trialReads = some "_trial_timeout_timer" ∧
      firstMissing displayInstructionsReads = some "_instructions_font" ∧
      (["_block_timeout_timer", "_trial_timeout_timer", "_block_time",
          "_trial_time", "_instructions_font"].all
        (fun a => !(initAttrs.contains a))) = true ∧
      (["block_time", "trial_time", "instructions_font"].all
        (fun a => initAttrs.contains a)) = true := by
  decide

/-! ### C10: non-totality of the summary computation -/

/-- A completed non-practice trial with a response, as `basic_summary` sees
it. -/
def sampleSTrial : STrial :=
  { skipped := false, block_type := some "test", correct := some true,
    rt := 500, time_elapsed := 1500, resumed_from_here := false }

/-- C10: three concrete inputs on which `basic_summary` raises instead of
returning: a history whose only trial is practice-flagged (the filtered list
is empty and `trials[-1]` / `trials[0]` fails); a history whose only
non-practice trial is skipped with `adjust_time_taken` (mean-rt divides by
zero); and a skipped-only history with a `correct` key and no adjustment
(accuracy divides `0/0`). -/
theorem basic_summary_not_total :
    basic_summary false [{ sampleSTrial with block_type := some "practice" }]
        false none none false = Except.error "IndexError" ∧
      basic_summary false [{ sampleSTrial with skipped := true }] false none
        none true = Except.error "ZeroDivisionError" ∧
      basic_summary false [{ sampleSTrial with skipped := true }] false none
        none false = Except.error "ZeroDivisionError" :=
  ⟨rfl, rfl, rfl⟩


/-! ### C6: response handlers and outcome-field freezing -/

/-- A one-trial procedure whose trial is in progress. -/
def midTrialProc : Proc :=
  { records := [{ sampleTrial with status := TStatus.in_progress }]
    cursor := some 0
    test_resumed := false
    test_completed := false }

/-- A one-trial session whose trial is in progress (mid-trial state,
awaiting a response). -/
def midTrialEng : Eng :=
  { (freshEng [sampleTrial]) with proc := some midTrialProc, trial_on := true }

/-- C6 counterexample: two mouse presses whose user handler records nothing
(presses outside every zone, `mousePressEvent_` a no-op) each assign `rt` on
the same still-in-progress trial — first 5 ms, then 9 ms — so `rt` is not
assigned at most once per trial. -/
theorem rt_assigned_twice :
    (engCurrent (mousePressEvent id default_stopping_rule midTrialEng 5 10)).map
        (fun r => r.rt) = some 5 ∧
      (engCurrent (mousePressEvent id default_stopping_rule
          (mousePressEvent id default_stopping_rule midTrialEng 5 10) 9 12)).map
        (fun r => r.rt) = some 9 ∧
      (engCurrent (mousePressEvent id default_stopping_rule
          (mousePressEvent id default_stopping_rule midTrialEng 5 10) 9 12)).map
        (fun r => r.status) = some TStatus.in_progress := by
  decide

/-- The `updCurrent` rewrites the current trial pointwise. -/
theorem engCurrent_updCurrent (e : Eng) (f : TrialRec → TrialRec) (r : TrialRec)
    (h : engCurrent e = some r) : engCurrent (updCurrent e f) = some (f r) := by
  obtain ⟨p, hp⟩ : ∃ p, e.proc = some p := by
    cases hq : e.proc
    · simp [engCurrent, hq] at h
    · exact ⟨_, rfl⟩
  obtain ⟨i, hc⟩ : ∃ i, p.cursor = some i := by
    cases hq : p.cursor
    · simp [engCurrent, procCurrent, hp, hq] at h
    · exact ⟨_, rfl⟩
  have hr : p.records.get? i = some r := by
    simpa [engCurrent, procCurrent, hp, hc] using h
  simp only [engCurrent, updCurrent, procCurrent, updAt, hp, hc, hr, Option.bind_some]
  simp [List.getElem?_set_self', hr]
  exact ⟨r, by simpa using hr⟩

/-- C6 amended: while `trial_on` holds and a current trial exists, every
mouse/key event runs the user handler and then reassigns both `rt` and
`time_elapsed` on the current record — regardless of the record's previous
`rt` and even when its status is already `skipped` — and only an event that
leaves the trial completed goes on to advance the engine. -/
theorem handlers_overwrite_outcome_fields (hook : TrialRec → TrialRec)
    (rule : List TrialRec → Bool) (e : Eng) (tEl bEl : Int) (r : TrialRec)
    (hcur : engCurrent e = some r) (hon : e.trial_on = true)
    (hnc : (hook r).status ≠ TStatus.completed) :
    engCurrent (mousePressEvent hook rule e tEl bEl) =
        some { hook r with rt := tEl, time_elapsed := bEl } ∧
      engCurrent (keyReleaseEvent hook rule e tEl bEl) =
        some { hook r with rt := tEl, time_elapsed := bEl } := by
  have key : engCurrent (mousePressEvent hook rule e tEl bEl) =
      some { hook r with rt := tEl, time_elapsed := bEl } := by
    unfold mousePressEvent
    rw [hcur]
    simp only [hon, if_true]
    have h1 := engCurrent_updCurrent e hook r hcur
    have h2 := engCurrent_updCurrent (updCurrent e hook)
      (fun s => { s with rt := tEl, time_elapsed := bEl }) (hook r) h1
    rw [h2]
    simp only [Option.map_some]
    rw [if_neg]
    · exact h2
    · intro hcontra
      exact hnc (by simpa using hcontra)
  exact ⟨key, by unfold keyReleaseEvent; exact key⟩

/-- A one-trial procedure whose trial was already finalized as skipped with
`rt = 7`. -/
def skippedTrialProc : Proc :=
  { records := [{ sampleTrial with status := TStatus.skipped, rt := 7 }]
    cursor := some 0
    test_resumed := false
    test_completed := false }

/-- A session holding that skipped trial while the engine still regards the
trial as on. -/
def skippedTrialEng : Eng :=
  { (freshEng [sampleTrial]) with proc := some skippedTrialProc, trial_on := true }

/-- Witness for the amended C6 theorem: a press on a record already
finalized as skipped (with `rt = 7`) overwrites its `rt` to 42 and its
`time_elapsed` to 99. -/
theorem handlers_overwrite_outcome_fields_witness :
    engCurrent (mousePressEvent id default_stopping_rule skippedTrialEng 42 99) =
        some { sampleTrial with status := TStatus.skipped, rt := 42, time_elapsed := 99 } ∧
      engCurrent (keyReleaseEvent id default_stopping_rule skippedTrialEng 42 99) =
        some { sampleTrial with status := TStatus.skipped, rt := 42, time_elapsed := 99 } :=
  handlers_overwrite_outcome_fields id default_stopping_rule skippedTrialEng 42 99
    { sampleTrial with status := TStatus.skipped, rt := 7 } rfl rfl (by decide)

/-! ### C8: fields produced by the trial-sequence generators -/

/-- C8 counterexample: the first trial dict of `charlie1_trials` has neither
a `practice` nor a `block_number` key (its keys are `block`, `block_type`,
`trial`, `blaze_position`, `glyph`), and the first dict of `charlie2_trials`
has no `practice` key. -/
theorem generator_fields_missing :
    (charlie1_trials.get? 0).map
        (fun d => (d.lookup "practice", d.lookup "block_number")) = some (none, none) ∧
      (charlie2_trials.get? 0).map (fun d => d.lookup "practice") = some none := by
  decide

/-- Every dict built by the `make_trials` loops carries `block_number`,
`block_type` and `practice`. -/
theorem vwm_build_fields (l : List (Nat × List String)) (out : List TrialDict)
    (h : vwm_build l = some out) :
    ∀ d ∈ out, (d.lookup "block_number").isSome ∧
      (d.lookup "block_type").isSome ∧ (d.lookup "practice").isSome := by
  induction l generalizing out with
  | nil =>
      simp only [vwm_build] at h
      cases h
      intro d hd
      simp at hd
  | cons x rest ih =>
      obtain ⟨block, seqs⟩ := x
      simp only [vwm_build, Option.bind_eq_some, Option.map_eq_some'] at h
      obtain ⟨bt, hbt, pr, hpr, ds, hds, hout⟩ := h
      subst hout
      intro d hd
      rcases List.mem_append.mp hd with hmem | hmem
      · obtain ⟨x, hx, hdx⟩ := List.mem_map.mp hmem
        subst hdx
        exact ⟨by simp [vwm_mkdict, List.lookup], by simp [vwm_mkdict, List.lookup],
          by simp [vwm_mkdict, List.lookup]⟩
      · exact ih ds hds d hmem

/-- C8 amended: every element of the verbal-working-memory `make_trials`
output carries all three engine-required fields (`block_number`,
`block_type`, `practice`); `charlie2_trials` elements carry `block_number`
and `block_type` but no `practice` field; `charlie1_trials` elements carry
only `block_type` of the three (block and trial indices are stored under the
keys `block` and `trial`). -/
theorem trial_generators_required_fields (sequences : List (List String))
    (out : List TrialDict) (h : vwm_make_trials sequences = some out) :
    (∀ d ∈ out, (d.lookup "block_number").isSome ∧
        (d.lookup "block_type").isSome ∧ (d.lookup "practice").isSome) ∧
      (charlie2_trials.all (fun d =>
        (d.lookup "block_number").isSome && (d.lookup "block_type").isSome)) = true ∧
      (charlie1_trials.all (fun d => (d.lookup "block_type").isSome)) = true :=
  ⟨vwm_build_fields sequences.enum out h, by rfl, by rfl⟩

/-- The stimulus table of a concrete four-block session. -/
def vwmSampleSeqs : List (List String) := [["12", "34"], ["56"], ["1a"], ["2b"]]

/-- Witness for the amended C8 theorem at the concrete stimulus table. -/
theorem trial_generators_required_fields_witness :
    ((vwm_mkdict 0 0 "forward" false "12").lookup "block_number").isSome ∧
      ((vwm_mkdict 0 0 "forward" false "12").lookup "block_type").isSome ∧
      ((vwm_mkdict 0 0 "forward" false "12").lookup "practice").isSome :=
  (trial_generators_required_fields vwmSampleSeqs
      ((vwm_make_trials vwmSampleSeqs).getD []) rfl).1
    (vwm_mkdict 0 0 "forward" false "12") (by decide)


/-! ### Helper lemmas: observable-counter effects of the engine
transitions -/

/-- The `_trial` renders exactly one trial and touches no other collaborator
counter (and leaves `skip_countdown` as it found it). -/
theorem trial_effects (e : Eng) :
    (_trial e).trial_renders = e.trial_renders + 1 ∧
      (_trial e).block_renders = e.block_renders ∧
      (_trial e).saves = e.saves ∧ (_trial e).switches = e.switches ∧
      (_trial e).summaries = e.summaries ∧ (_trial e).aborts = e.aborts ∧
      (_trial e).skip_countdown = e.skip_countdown := by
  cases e
  unfold _trial setTrialOn stopTrialTimeout startTrialTimeout startBlockTimeout
  dsimp only
  repeat' split
  all_goals exact ⟨rfl, rfl, rfl, rfl, rfl, rfl, rfl⟩

theorem trial_skip_block_calls (e : Eng) :
    (_trial e).skip_block_calls = e.skip_block_calls := by
  cases e
  unfold _trial setTrialOn stopTrialTimeout startTrialTimeout startBlockTimeout
  dsimp only
  repeat' split
  all_goals rfl

/-- A silent `_block` sets `skip_countdown` and proceeds straight to
`_trial`: one trial render, no block render. -/
theorem block_effects_silent (e : Eng) (h : e.block_silent = true) :
    (_block e).trial_renders = e.trial_renders + 1 ∧
      (_block e).block_renders = e.block_renders ∧
      (_block e).skip_countdown = true ∧
      (_block e).saves = e.saves ∧ (_block e).switches = e.switches := by
  cases e
  subst h
  unfold _block setTrialOn setMouseOn stopTrialTimeout startTrialTimeout stopBlockTimeout
  dsimp only
  rw [if_pos rfl]
  exact ⟨(trial_effects _).1, (trial_effects _).2.1, (trial_effects _).2.2.2.2.2.2,
    (trial_effects _).2.2.1, (trial_effects _).2.2.2.1⟩

/-- A non-silent `_block` renders the block-level content and does not
render a trial. -/
theorem block_effects_loud (e : Eng) (h : e.block_silent = false) :
    (_block e).block_renders = e.block_renders + 1 ∧
      (_block e).trial_renders = e.trial_renders ∧
      (_block e).saves = e.saves ∧ (_block e).switches = e.switches := by
  cases e
  subst h
  unfold _block setTrialOn setMouseOn stopTrialTimeout startTrialTimeout stopBlockTimeout
  dsimp only
  rw [if_neg (by simp)]
  exact ⟨rfl, rfl, rfl, rfl⟩

theorem block_skip_block_calls (e : Eng) :
    (_block e).skip_block_calls = e.skip_block_calls := by
  cases e
  unfold _block setTrialOn setMouseOn stopTrialTimeout startTrialTimeout stopBlockTimeout
  dsimp only
  repeat' split
  all_goals (first | rfl | (rw [trial_skip_block_calls]))

/-- The `safe_close` persists once, hands control back once, and finalizes
exactly once (a summary on a completed procedure, an abort otherwise); it
renders nothing. -/
theorem safe_close_effects (e : Eng) (p : Proc) (hp : e.proc = some p) :
    (safe_close e).saves = e.saves + 1 ∧ (safe_close e).switches = e.switches + 1 ∧
      (safe_close e).summaries + (safe_close e).aborts = e.summaries + e.aborts + 1 ∧
      (safe_close e).block_renders = e.block_renders ∧
      (safe_close e).trial_renders = e.trial_renders := by
  cases e
  subst hp
  unfold safe_close stopBlockTimeout stopTrialTimeout
  dsimp only
  repeat' split
  all_goals exact ⟨rfl, rfl, by dsimp only; omega, rfl, rfl⟩

theorem safe_close_skip_block_calls (e : Eng) :
    (safe_close e).skip_block_calls = e.skip_block_calls := by
  cases e
  unfold safe_close stopBlockTimeout stopTrialTimeout
  dsimp only
  repeat' split
  all_goals rfl

/-- The procedure-creation guard touches only `proc` and `proc_creations`. -/
theorem stepGuard_effects (e : Eng) :
    (stepGuard e).saves = e.saves ∧ (stepGuard e).summaries = e.summaries ∧
      (stepGuard e).aborts = e.aborts ∧ (stepGuard e).switches = e.switches ∧
      (stepGuard e).block_renders = e.block_renders ∧
      (stepGuard e).trial_renders = e.trial_renders ∧
      (stepGuard e).block_silent = e.block_silent := by
  unfold stepGuard
  split <;> exact ⟨rfl, rfl, rfl, rfl, rfl, rfl, rfl⟩

theorem stepGuard_skip_block_calls (e : Eng) :
    (stepGuard e).skip_block_calls = e.skip_block_calls := by
  unfold stepGuard
  split <;> rfl

/-- The `_step` never invokes `skip_block`. -/
theorem step_skip_block_calls (e : Eng) :
    (_step e).skip_block_calls = e.skip_block_calls := by
  unfold _step
  cases hp : (stepGuard e).proc with
  | none =>
      simp only [hp]
      exact stepGuard_skip_block_calls e
  | some p =>
      simp only [hp]
      cases hn : procNext p with
      | mk p' oi =>
          cases oi with
          | none =>
              simp only [hn]
              rw [safe_close_skip_block_calls]
              exact stepGuard_skip_block_calls e
          | some i =>
              simp only [hn]
              split
              · rw [block_skip_block_calls]; exact stepGuard_skip_block_calls e
              · rw [trial_skip_block_calls]; exact stepGuard_skip_block_calls e

/-- The `_next_trial` leaves `skip_block` uninvoked whenever the consulted
stopping rule returns false on the completed-trial history. -/
theorem next_trial_rule_false (rule : List TrialRec → Bool) (e : Eng) (p : Proc)
    (hp : e.proc = some p) (hr : rule (completedTrials p) = false) :
    (_next_trial rule e).skip_block_calls = e.skip_block_calls := by
  unfold _next_trial
  cases hs : e.save_after_each_trial <;>
    simp [hs, hp, hr, step_skip_block_calls]

/-! ### C5: the stopping rule and practice trials -/

/-- C5: when the most recently completed trial is practice-flagged, the
verbal-working-memory `block_stopping_rule` returns false (and the default
`stopping_rule` returns false on every history), so `_next_trial` does not
invoke `Procedure.skip_block` under either rule. -/
theorem practice_trial_never_skips_block (e : Eng) (p : Proc) (t : TrialRec)
    (hp : e.proc = some p) (hlast : (completedTrials p).getLast? = some t)
    (hprac : t.practice = true) :
    block_stopping_rule (completedTrials p) = some false ∧
      (_next_trial vwm_rule e).skip_block_calls = e.skip_block_calls ∧
      (_next_trial default_stopping_rule e).skip_block_calls = e.skip_block_calls := by
  have hbs : block_stopping_rule (completedTrials p) = some false := by
    unfold block_stopping_rule
    rw [hlast]
    simp [hprac]
  exact ⟨hbs, next_trial_rule_false _ e p hp (by simp [vwm_rule, hbs]),
    next_trial_rule_false _ e p hp rfl⟩

/-- A session whose single completed trial is practice-flagged (and was
answered incorrectly, the case a stopping rule might act on). -/
def practiceDoneProc : Proc :=
  { records := [{ sampleTrial with practice := true, status := TStatus.completed, correct := some false }]
    cursor := some 0
    test_resumed := true
    test_completed := false }

/-- The engine holding that session. -/
def practiceDoneEng : Eng :=
  { (freshEng []) with proc := some practiceDoneProc, data_test_resumed := true }

/-- Witness for C5 at the concrete practice-trial history. -/
theorem practice_trial_never_skips_block_witness :
    block_stopping_rule (completedTrials practiceDoneProc) = some false ∧
      (_next_trial vwm_rule practiceDoneEng).skip_block_calls =
        practiceDoneEng.skip_block_calls ∧
      (_next_trial default_stopping_rule practiceDoneEng).skip_block_calls =
        practiceDoneEng.skip_block_calls :=
  practice_trial_never_skips_block practiceDoneEng practiceDoneProc
    { sampleTrial with practice := true, status := TStatus.completed, correct := some false }
    rfl (by decide) rfl


/-! ### C1: the dispatch of `_step` -/

/-- C1: for every `_step` call (with `p` the procedure after the creation
guard): on `StopIteration` the engine runs the session-end transition
`safe_close` — one save, one hand-back, exactly one finalization (summary or
abort), no presentation render; otherwise, when the returned current trial
is first in its block, the block-start transition runs — rendering
block-level content when `block_silent` is false, and proceeding straight to
the trial (with `skip_countdown` set, no block render) when `block_silent`
is configured; in every other case the trial-start transition runs
directly. -/
theorem step_dispatch (e : Eng) (p : Proc) (hp : (stepGuard e).proc = some p) :
    ((procNext p).2 = none →
        (_step e).saves = e.saves + 1 ∧ (_step e).switches = e.switches + 1 ∧
          (_step e).summaries + (_step e).aborts = e.summaries + e.aborts + 1 ∧
          (_step e).block_renders = e.block_renders ∧
          (_step e).trial_renders = e.trial_renders) ∧
      (∀ i, (procNext p).2 = some i → currentFtib (procNext p).1 = true →
        e.block_silent = false →
          (_step e).block_renders = e.block_renders + 1 ∧
            (_step e).trial_renders = e.trial_renders ∧
            (_step e).saves = e.saves ∧ (_step e).switches = e.switches) ∧
      (∀ i, (procNext p).2 = some i → currentFtib (procNext p).1 = true →
        e.block_silent = true →
          (_step e).trial_renders = e.trial_renders + 1 ∧
            (_step e).block_renders = e.block_renders ∧
            (_step e).skip_countdown = true ∧
            (_step e).saves = e.saves ∧ (_step e).switches = e.switches) ∧
      (∀ i, (procNext p).2 = some i → currentFtib (procNext p).1 = false →
        (_step e).trial_renders = e.trial_renders + 1 ∧
          (_step e).block_renders = e.block_renders ∧
          (_step e).saves = e.saves ∧ (_step e).switches = e.switches) := by
  obtain ⟨hgs, hgsum, hgab, hgsw, hgbr, hgtr, hgbs⟩ := stepGuard_effects e
  unfold _step
  simp only [hp]
  cases hn : procNext p with
  | mk p' oi =>
      cases oi with
      | none =>
          dsimp only
          refine ⟨fun _ => ?_, by intro i h; simp at h, by intro i h; simp at h,
            by intro i h; simp at h⟩
          obtain ⟨s1, s2, s3, s4, s5⟩ :=
            safe_close_effects { stepGuard e with proc := some p' } p' rfl
          refine ⟨?_, ?_, ?_, ?_, ?_⟩
          · rw [s1]; exact congrArg (fun n => n + 1) hgs
          · rw [s2]; exact congrArg (fun n => n + 1) hgsw
          · rw [s3]
            exact congrArg (fun n => n + 1) (congrArg₂ HAdd.hAdd hgsum hgab)
          · rw [s4]; exact hgbr
          · rw [s5]; exact hgtr
      | some j =>
          dsimp only
          refine ⟨by intro h; simp at h, fun i h hftib hsil => ?_,
            fun i h hftib hsil => ?_, fun i h hftib => ?_⟩
          · rw [if_pos hftib]
            obtain ⟨b1, b2, b3, b4⟩ :=
              block_effects_loud { stepGuard e with proc := some p' } (hgbs.trans hsil)
            refine ⟨?_, ?_, ?_, ?_⟩
            · rw [b1]; exact congrArg (fun n => n + 1) hgbr
            · rw [b2]; exact hgtr
            · rw [b3]; exact hgs
            · rw [b4]; exact hgsw
          · rw [if_pos hftib]
            obtain ⟨b1, b2, b3, b4, b5⟩ :=
              block_effects_silent { stepGuard e with proc := some p' } (hgbs.trans hsil)
            refine ⟨?_, ?_, b3, ?_, ?_⟩
            · rw [b1]; exact congrArg (fun n => n + 1) hgtr
            · rw [b2]; exact hgbr
            · rw [b4]; exact hgs
            · rw [b5]; exact hgsw
          · rw [if_neg (by simp [hftib])]
            obtain ⟨t1, t2, t3, t4, t5, t6, t7⟩ :=
              trial_effects { stepGuard e with proc := some p' }
            refine ⟨?_, ?_, ?_, ?_⟩
            · rw [t1]; exact congrArg (fun n => n + 1) hgtr
            · rw [t2]; exact hgbr
            · rw [t3]; exact hgs
            · rw [t4]; exact hgsw


/-- A fresh one-trial session configured with a silent block. -/
def silentEng : Eng := { (freshEng [sampleTrial]) with block_silent := true }

/-- A resumed session mid-block: the first trial of block 0 is completed,
the second (same block) is pending. -/
def midBlockProc : Proc :=
  { records := [{ sampleTrial with status := TStatus.completed }, { sampleTrial with trial_number := 1 }]
    cursor := some 0
    test_resumed := true
    test_completed := false }

/-- The engine holding that mid-block session. -/
def midBlockEng : Eng :=
  { (freshEng []) with proc := some midBlockProc, data_test_resumed := true }

/-- Witness for C1: the four dispatch branches evaluated on concrete
sessions (an exhausted resumed session; a fresh session at a block start,
non-silent and silent; a resumed session mid-block). -/
theorem step_dispatch_witness :
    ((_step endedEng).saves = endedEng.saves + 1 ∧
        (_step endedEng).switches = endedEng.switches + 1 ∧
        (_step endedEng).summaries + (_step endedEng).aborts =
          endedEng.summaries + endedEng.aborts + 1 ∧
        (_step endedEng).block_renders = endedEng.block_renders ∧
        (_step endedEng).trial_renders = endedEng.trial_renders) ∧
      ((_step (freshEng [sampleTrial])).block_renders =
          (freshEng [sampleTrial]).block_renders + 1 ∧
        (_step (freshEng [sampleTrial])).trial_renders =
          (freshEng [sampleTrial]).trial_renders ∧
        (_step (freshEng [sampleTrial])).saves = (freshEng [sampleTrial]).saves ∧
        (_step (freshEng [sampleTrial])).switches = (freshEng [sampleTrial]).switches) ∧
      ((_step silentEng).trial_renders = silentEng.trial_renders + 1 ∧
        (_step silentEng).block_renders = silentEng.block_renders ∧
        (_step silentEng).skip_countdown = true ∧
        (_step silentEng).saves = silentEng.saves ∧
        (_step silentEng).switches = silentEng.switches) ∧
      ((_step midBlockEng).trial_renders = midBlockEng.trial_renders + 1 ∧
        (_step midBlockEng).block_renders = midBlockEng.block_renders ∧
        (_step midBlockEng).saves = midBlockEng.saves ∧
        (_step midBlockEng).switches = midBlockEng.switches) :=
  ⟨(step_dispatch endedEng endedProc rfl).1 rfl,
    (step_dispatch (freshEng [sampleTrial]) (procInit [sampleTrial]) rfl).2.1 0 rfl rfl rfl,
    (step_dispatch silentEng (procInit [sampleTrial]) rfl).2.2.1 0 rfl rfl rfl,
    (step_dispatch midBlockEng midBlockProc rfl).2.2.2 1 rfl rfl⟩



/-! ### C7: the four time_taken branches of basic_summary -/

/-- Every analysed trial comes from the original trial list. -/
theorem analysedTrials_subset (trials : List STrial) :
    ∀ t ∈ analysedTrials trials, t ∈ trials := by
  intro t ht
  unfold analysedTrials at ht
  split at ht
  · exact (List.mem_filter.mp ht).1
  · exact ht

/-- The `time_taken` with no skips and no resume: the last analysed trial's
`time_elapsed`. -/
theorem bsTimeTaken_fresh (skipped trials not_skipped : List STrial)
    (bmt : Option Nat) (adjust : Bool) (last : STrial)
    (h : trials.getLast? = some last) :
    bsTimeTaken skipped trials not_skipped false false bmt adjust =
      Except.ok [("time_taken", SumVal.i last.time_elapsed)] := by
  unfold bsTimeTaken
  rw [if_pos (by simp), h]

/-- The `time_taken` with no skips on a resumed test: the last analysed trial's
`time_elapsed` plus the elapsed time recorded before each resume marker. -/
theorem bsTimeTaken_resumed (skipped trials not_skipped : List STrial)
    (bmt : Option Nat) (adjust : Bool) (last : STrial) (res : Int)
    (hsum : sumElapsedAt trials ((trials.filter (fun t => t.resumed_from_here)).map
      (fun t => ((trials.indexOf t : Nat) : Int) - 1)) = some res)
    (hlast : trials.getLast? = some last) :
    bsTimeTaken skipped trials not_skipped false true bmt adjust =
      Except.ok [("time_taken", SumVal.i (last.time_elapsed + res))] := by
  have hpy : pyIndex trials (-1) = some last := by
    have hne : trials ≠ [] := by intro he; rw [he] at hlast; simp at hlast
    have hlen : 0 < trials.length := List.length_pos.mpr hne
    unfold pyIndex
    rw [if_neg (by norm_num), if_pos (by simpa using hlen)]
    rw [List.get?_eq_getElem?]
    rw [show ((-(-1 : Int)).toNat) = 1 from rfl]
    rw [← List.getLast?_eq_getElem?]
    exact hlast
  unfold bsTimeTaken
  rw [if_neg (by simp), if_pos (by simp)]
  simp only [hsum, hpy]

/-- The `time_taken` with skips and adjustment:
`int(block_max_time*1000 + meanrt*len(skipped))`. -/
theorem bsTimeTaken_adjust (skipped trials not_skipped : List STrial)
    (resumed : Bool) (B : Nat) (hns : not_skipped.length ≠ 0) :
    bsTimeTaken skipped trials not_skipped true resumed (some B) true =
      Except.ok [("time_taken", SumVal.i (pyInt ((B : Rat) * 1000 +
        (((not_skipped.map (fun t => t.rt)).sum : Int) : Rat) /
          ((not_skipped.length : Nat) : Rat) * ((skipped.length : Nat) : Rat))))] := by
  unfold bsTimeTaken
  rw [if_neg (by simp), if_neg (by simp), if_neg (by simp), if_neg hns]

/-- With skips and no adjustment requested, no `time_taken` entry is
produced. -/
theorem bsTimeTaken_no_adjust (skipped trials not_skipped : List STrial)
    (resumed : Bool) (bmt : Option Nat) :
    bsTimeTaken skipped trials not_skipped true resumed bmt false =
      Except.ok [] := by
  unfold bsTimeTaken
  rw [if_neg (by simp), if_neg (by simp), if_pos (by simp)]

/-- The accuracy stage succeeds when the analysed list has a head and, if
that head carries a `correct` key, there is at least one response; whatever
it appends never contains a `time_taken` key. -/
theorem bsAccuracy_lookup (trials not_skipped : List STrial)
    (dic : List (String × SumVal)) (t0 : STrial) (h0 : trials.head? = some t0)
    (hnz : t0.correct.isSome = true → not_skipped.length ≠ 0) :
    ∃ extra, bsAccuracy trials not_skipped dic = Except.ok (dic ++ extra) ∧
      List.lookup "time_taken" extra = none := by
  unfold bsAccuracy
  rw [h0]
  cases hc : t0.correct.isSome with
  | false =>
      simp only [hc, Bool.false_eq_true, if_false]
      exact ⟨[], by simp, rfl⟩
  | true =>
      simp only [hc, if_true]
      rw [if_neg (hnz hc)]
      exact ⟨_, rfl, rfl⟩

/-- Pushing a `time_taken` entry through the accuracy stage: the result dict
still maps `time_taken` to it. -/
theorem bsAccuracy_time_taken (trials not_skipped : List STrial)
    (a b c v : SumVal) (t0 : STrial) (h0 : trials.head? = some t0)
    (hnz : t0.correct.isSome = true → not_skipped.length ≠ 0) :
    ∃ d, bsAccuracy trials not_skipped
        ([("completed", a), ("responses", b), ("any_skipped", c)] ++ [("time_taken", v)]) =
      Except.ok d ∧ List.lookup "time_taken" d = some v := by
  obtain ⟨extra, hacc, hlex⟩ := bsAccuracy_lookup trials not_skipped
    ([("completed", a), ("responses", b), ("any_skipped", c)] ++ [("time_taken", v)])
    t0 h0 hnz
  exact ⟨_, hacc, by simp [List.lookup, hlex]⟩

/-- Without a `time_taken` entry, the accuracy stage returns a dict with no
`time_taken` key. -/
theorem bsAccuracy_no_time_taken (trials not_skipped : List STrial)
    (a b c : SumVal) (t0 : STrial) (h0 : trials.head? = some t0)
    (hnz : t0.correct.isSome = true → not_skipped.length ≠ 0) :
    ∃ d, bsAccuracy trials not_skipped
        ([("completed", a), ("responses", b), ("any_skipped", c)] ++ []) =
      Except.ok d ∧ List.lookup "time_taken" d = none := by
  obtain ⟨extra, hacc, hlex⟩ := bsAccuracy_lookup trials not_skipped
    ([("completed", a), ("responses", b), ("any_skipped", c)] ++ [])
    t0 h0 hnz
  exact ⟨_, hacc, by simp [List.lookup, hlex]⟩


/-- C7: `basic_summary` computes `time_taken` in exactly four branches —
with no skipped trials and no resume it is the last analysed trial's
`time_elapsed`; with no skips on a resumed test it adds the elapsed time
recorded before each resume marker; with skips present and
`adjust_time_taken` it is `int(block_max_time*1000 + mean rt of non-skipped
trials * number skipped)`; and with skips present and no adjustment the
returned dict has no `time_taken` key at all (the defined output, not an
error). -/
theorem basic_summary_time_taken_branches (completed : List STrial)
    (bmt : Option Nat) (adjust resumed : Bool) :
    (∀ last, completed.all (fun t => !t.skipped) = true →
      (analysedTrials completed).getLast? = some last →
      ∃ d, basic_summary false completed false bmt none adjust = Except.ok d ∧
        d.lookup "time_taken" = some (SumVal.i last.time_elapsed)) ∧
    (∀ last res, completed.all (fun t => !t.skipped) = true →
      (analysedTrials completed).getLast? = some last →
      sumElapsedAt (analysedTrials completed)
        (((analysedTrials completed).filter (fun t => t.resumed_from_here)).map
          (fun t => (((analysedTrials completed).indexOf t : Nat) : Int) - 1)) = some res →
      ∃ d, basic_summary false completed true bmt none adjust = Except.ok d ∧
        d.lookup "time_taken" = some (SumVal.i (last.time_elapsed + res))) ∧
    (∀ B, (completed.filter (fun t => t.skipped)).length > 0 →
      ((analysedTrials completed).filter (fun t => !t.skipped)).length ≠ 0 →
      ∃ d, basic_summary false completed resumed (some B) none true = Except.ok d ∧
        d.lookup "time_taken" = some (SumVal.i (pyInt ((B : Rat) * 1000 +
          (((((analysedTrials completed).filter (fun t => !t.skipped)).map
              (fun t => t.rt)).sum : Int) : Rat) /
            ((((analysedTrials completed).filter (fun t => !t.skipped)).length : Nat) : Rat) *
          (((completed.filter (fun t => t.skipped)).length : Nat) : Rat))))) ∧
    (∀ t0, (completed.filter (fun t => t.skipped)).length > 0 →
      (analysedTrials completed).head? = some t0 →
      (t0.correct.isSome = true →
        ((analysedTrials completed).filter (fun t => !t.skipped)).length ≠ 0) →
      ∃ d, basic_summary false completed resumed bmt none false = Except.ok d ∧
        d.lookup "time_taken" = none) := by
  refine ⟨?_, ?_, ?_, ?_⟩
  · intro last hall hlast
    have hskipnil : completed.filter (fun t => t.skipped) = [] := by
      rw [List.filter_eq_nil_iff]
      intro a ha
      simpa using List.all_eq_true.mp hall a ha
    have hns : (analysedTrials completed).filter (fun t => !t.skipped) =
        analysedTrials completed := by
      rw [List.filter_eq_self]
      intro a ha
      simpa using List.all_eq_true.mp hall a (analysedTrials_subset completed a ha)
    have hne : analysedTrials completed ≠ [] := by
      intro he; rw [he] at hlast; simp at hlast
    obtain ⟨t0, ht0⟩ : ∃ t0, (analysedTrials completed).head? = some t0 := by
      cases hh : (analysedTrials completed).head? with
      | none => exact absurd (List.head?_eq_none_iff.mp hh) hne
      | some t0 => exact ⟨t0, rfl⟩
    have hlen0 : (analysedTrials completed).length ≠ 0 := by
      simpa [List.length_eq_zero] using hne
    unfold basic_summary
    rw [if_neg (by simp)]
    simp only [Option.getD_none]
    simp only [hskipnil, hns]
    simp only [show (decide (([] : List STrial).length > 0)) = false from rfl]
    rw [bsTimeTaken_fresh [] (analysedTrials completed) (analysedTrials completed)
      bmt adjust last hlast]
    dsimp only
    exact bsAccuracy_time_taken (analysedTrials completed) (analysedTrials completed)
      _ _ _ _ t0 ht0 (fun _ => hlen0)
  · intro last res hall hlast hsum
    have hskipnil : completed.filter (fun t => t.skipped) = [] := by
      rw [List.filter_eq_nil_iff]
      intro a ha
      simpa using List.all_eq_true.mp hall a ha
    have hns : (analysedTrials completed).filter (fun t => !t.skipped) =
        analysedTrials completed := by
      rw [List.filter_eq_self]
      intro a ha
      simpa using List.all_eq_true.mp hall a (analysedTrials_subset completed a ha)
    have hne : analysedTrials completed ≠ [] := by
      intro he; rw [he] at hlast; simp at hlast
    obtain ⟨t0, ht0⟩ : ∃ t0, (analysedTrials completed).head? = some t0 := by
      cases hh : (analysedTrials completed).head? with
      | none => exact absurd (List.head?_eq_none_iff.mp hh) hne
      | some t0 => exact ⟨t0, rfl⟩
    have hlen0 : (analysedTrials completed).length ≠ 0 := by
      simpa [List.length_eq_zero] using hne
    unfold basic_summary
    rw [if_neg (by simp)]
    simp only [Option.getD_none]
    simp only [hskipnil, hns]
    simp only [show (decide (([] : List STrial).length > 0)) = false from rfl]
    rw [bsTimeTaken_resumed [] (analysedTrials completed) (analysedTrials completed)
      bmt adjust last res hsum hlast]
    dsimp only
    exact bsAccuracy_time_taken (analysedTrials completed) (analysedTrials completed)
      _ _ _ _ t0 ht0 (fun _ => hlen0)
  · intro B hsk hns
    have hne : analysedTrials completed ≠ [] := by
      intro he
      rw [he] at hns
      simp at hns
    obtain ⟨t0, ht0⟩ : ∃ t0, (analysedTrials completed).head? = some t0 := by
      cases hh : (analysedTrials completed).head? with
      | none => exact absurd (List.head?_eq_none_iff.mp hh) hne
      | some t0 => exact ⟨t0, rfl⟩
    unfold basic_summary
    rw [if_neg (by simp)]
    simp only [Option.getD_none]
    simp only [show (decide ((completed.filter (fun t => t.skipped)).length > 0)) = true from
      decide_eq_true hsk]
    rw [bsTimeTaken_adjust (completed.filter (fun t => t.skipped))
      (analysedTrials completed)
      ((analysedTrials completed).filter (fun t => !t.skipped)) resumed B hns]
    dsimp only
    exact bsAccuracy_time_taken (analysedTrials completed)
      ((analysedTrials completed).filter (fun t => !t.skipped))
      _ _ _ _ t0 ht0 (fun _ => hns)
  · intro t0 hsk ht0 hnz
    unfold basic_summary
    rw [if_neg (by simp)]
    simp only [Option.getD_none]
    simp only [show (decide ((completed.filter (fun t => t.skipped)).length > 0)) = true from
      decide_eq_true hsk]
    rw [bsTimeTaken_no_adjust (completed.filter (fun t => t.skipped))
      (analysedTrials completed)
      ((analysedTrials completed).filter (fun t => !t.skipped)) resumed bmt]
    dsimp only
    exact bsAccuracy_no_time_taken (analysedTrials completed)
      ((analysedTrials completed).filter (fun t => !t.skipped))
      _ _ _ t0 ht0 hnz


/-- Two completed test trials, no skips, not resumed. -/
def c7fresh : List STrial := [sampleSTrial, { sampleSTrial with time_elapsed := 3000 }]

/-- A resumed two-trial history: the second trial carries the resume
marker. -/
def c7res : List STrial :=
  [sampleSTrial, { sampleSTrial with resumed_from_here := true, time_elapsed := 800 }]

/-- A history with one skipped and one completed test trial. -/
def c7skip : List STrial := [{ sampleSTrial with skipped := true, rt := 0 }, sampleSTrial]

/-- Witness for C7: its four branches evaluated on concrete histories. -/
theorem basic_summary_time_taken_branches_witness :
    (∃ d, basic_summary false c7fresh false none none false = Except.ok d ∧
      d.lookup "time_taken" = some (SumVal.i 3000)) ∧
    (∃ d, basic_summary false c7res true none none false = Except.ok d ∧
      d.lookup "time_taken" = some (SumVal.i 2300)) ∧
    (∃ d, basic_summary false c7skip false (some 10) none true = Except.ok d ∧
      d.lookup "time_taken" = some (SumVal.i (pyInt (((10 : Nat) : Rat) * 1000 +
        (((((analysedTrials c7skip).filter (fun t => !t.skipped)).map
            (fun t => t.rt)).sum : Int) : Rat) /
          ((((analysedTrials c7skip).filter (fun t => !t.skipped)).length : Nat) : Rat) *
        (((c7skip.filter (fun t => t.skipped)).length : Nat) : Rat))))) ∧
    (∃ d, basic_summary false c7skip false none none false = Except.ok d ∧
      d.lookup "time_taken" = none) :=
  ⟨(basic_summary_time_taken_branches c7fresh none false false).1
      { sampleSTrial with time_elapsed := 3000 } rfl rfl,
    (basic_summary_time_taken_branches c7res none false false).2.1
      { sampleSTrial with resumed_from_here := true, time_elapsed := 800 } 1500 rfl rfl rfl,
    (basic_summary_time_taken_branches c7skip none true false).2.2.1 10
      (by decide) (by decide),
    (basic_summary_time_taken_branches c7skip none false false).2.2.2
      { sampleSTrial with skipped := true, rt := 0 } (by decide) rfl (fun _ => by decide)⟩

end Charlie2
